import Mathlib

/-!
Shallow embedding of the PostgreSQL CRUD engine of
postgres_mcp_server2.py (query builders, per-operation connection
lifecycle, the stdio tool dispatcher) and of the HTTP wrapper dispatch of
mcp_http_wrapper2.py.  The asyncpg driver is modelled as an oracle whose
methods may fail; a raised Python exception is an Except.error carrying
the description string produced by str(e).
-/

namespace PgMcp

/-- Scalar values carried in the data and conditions mappings and bound
as SQL parameters. -/
inductive Value where
  | vstr  : String → Value
  | vint  : Int → Value
  | vbool : Bool → Value
  | vnull : Value
  deriving DecidableEq, Repr

/-- A Python dict of column name to scalar value; the list order is the
insertion order, which Python dicts preserve. -/
abbrev Dict := List (String × Value)

/-- A database row as returned by the driver: column name / value pairs. -/
abbrev Row := List (String × Value)

/-- JSON values: the shape of the result dictionaries the engine returns.
The source serializes them with json.dumps; we keep the structured value. -/
inductive Json where
  | jnull : Json
  | jbool : Bool → Json
  | jstr  : String → Json
  | jint  : Int → Json
  | jarr  : List Json → Json
  | jobj  : List (String × Json) → Json
  deriving Repr

/-- Embedding of a scalar value into the produced JSON. -/
def Json.ofValue : Value → Json
  | .vstr s  => .jstr s
  | .vint n  => .jint n
  | .vbool b => .jbool b
  | .vnull   => .jnull

/-- Field lookup in a JSON object (none on a non-object or missing key). -/
def Json.lookupField : Json → String → Option Json
  | .jobj fields, k => fields.lookup k
  | _, _ => none

/-- A SQL fragment: statement text with positional placeholders plus the
ordered bound-parameter list. -/
structure Fragment where
  query : String
  params : List Value
  deriving DecidableEq, Repr

/-! ## Query builders (the pure string construction of each method) -/

/-- Build step of _create_record:
columns = ", ".join(data.keys());
placeholders = ", ".join(f"$\x7bi+1\x7d" for i in range(len(data)));
query = f"INSERT INTO ... RETURNING id;"; values = list(data.values()). -/
def buildCreate (table : String) (data : Dict) : Fragment :=
  let columns := String.intercalate ", " (data.map Prod.fst)
  let placeholders :=
    String.intercalate ", " ((List.range data.length).map (fun i => "$" ++ toString (i + 1)))
  { query := "INSERT INTO " ++ table ++ " (" ++ columns ++ ") VALUES ("
      ++ placeholders ++ ") RETURNING id;"
    params := data.map Prod.snd }

/-- The WHERE clause list of _read_records:
[f"\x7bk\x7d = $\x7bi+1\x7d" for i, k in enumerate(conditions.keys())]. -/
def readWhereClauses (conditions : Dict) : List String :=
  conditions.enum.map (fun ik => ik.2.1 ++ " = $" ++ toString (ik.1 + 1))

/-- Build step of _read_records.  The Python tests `if conditions:` and
`if limit:` use truthiness: None and the empty dict, and a limit of 0,
are falsy and emit no clause. -/
def buildRead (table : String) (conditions : Option Dict) (limit : Option Int) : Fragment :=
  let q0 := "SELECT * FROM " ++ table
  let withWhere : String × List Value :=
    match conditions with
    | some cs =>
      if cs.isEmpty then (q0, [])
      else (q0 ++ " WHERE " ++ String.intercalate " AND " (readWhereClauses cs),
            cs.map Prod.snd)
    | none => (q0, [])
  let q2 : String :=
    match limit with
    | some n => if n = 0 then withWhere.1 else withWhere.1 ++ " LIMIT " ++ toString n
    | none => withWhere.1
  { query := q2, params := withWhere.2 }

/-- The SET clause list of _update_records:
[f"\x7bk\x7d = $\x7bi+1\x7d" for i, k in enumerate(data.keys())]. -/
def setClauses (data : Dict) : List String :=
  data.enum.map (fun ik => ik.2.1 ++ " = $" ++ toString (ik.1 + 1))

/-- The WHERE clause list of _update_records:
[f"\x7bk\x7d = $\x7bi + where_start + 1\x7d" for i, k in enumerate(conditions.keys())]. -/
def updateWhereClauses (whereStart : Nat) (conditions : Dict) : List String :=
  conditions.enum.map (fun ik => ik.2.1 ++ " = $" ++ toString (ik.1 + whereStart + 1))

/-- Build step of _update_records: set clauses, where_start =
len(set_clauses), where clauses, query, values = data values then
conditions values. -/
def buildUpdate (table : String) (data conditions : Dict) : Fragment :=
  let sc := setClauses data
  let whereStart := sc.length
  let wc := updateWhereClauses whereStart conditions
  { query := "UPDATE " ++ table ++ " SET " ++ String.intercalate ", " sc
      ++ " WHERE " ++ String.intercalate " AND " wc
    params := data.map Prod.snd ++ conditions.map Prod.snd }

/-- The WHERE clause list of _delete_records (indices restart at 1). -/
def deleteWhereClauses (conditions : Dict) : List String :=
  conditions.enum.map (fun ik => ik.2.1 ++ " = $" ++ toString (ik.1 + 1))

/-- Build step of _delete_records. -/
def buildDelete (table : String) (conditions : Dict) : Fragment :=
  { query := "DELETE FROM " ++ table ++ " WHERE "
      ++ String.intercalate " AND " (deleteWhereClauses conditions)
    params := conditions.map Prod.snd }

/-- The fixed catalog query of _list_tables. -/
def listTablesQuery : String :=
  "SELECT table_name FROM information_schema.tables WHERE table_schema=\u0027public\u0027;"

/-- The fixed catalog query of _describe_table (a triple-quoted string in
the source; the leading and trailing whitespace is kept verbatim). -/
def describeQuery : String :=
  "\n            SELECT column_name, data_type, is_nullable, column_default\n            FROM information_schema.columns\n            WHERE table_name = $1;\n            "

/-- Build step of _describe_table: the fixed query, with the table name
passed as the single bound parameter. -/
def buildDescribe (table : String) : Fragment :=
  { query := describeQuery, params := [Value.vstr table] }

/-- Build step of _get_base_site (a triple-quoted f-string in the source;
trailing spaces before the newlines are kept verbatim). -/
def buildBaseSite (table : String) : Fragment :=
  { query := "\n            SELECT base_site \n            FROM " ++ table
      ++ " \n            ORDER BY calculated_time DESC \n            LIMIT 1;\n            "
    params := [] }

/-! ## Connection lifecycle and engine operations -/

/-- Connection-lifecycle events observed while one engine method runs:
acquiring the asyncpg connection, submitting one statement for
execution, and closing the connection. -/
inductive Event where
  | acquire : Event
  | sqlExec : String → List Value → Event
  | release : Event
  deriving DecidableEq, Repr

/-- The asyncpg driver modelled as an oracle: connect may fail, and each
query method may fail or return a result of the appropriate shape. -/
structure Oracle where
  connect : Except String Unit
  fetchval : String → List Value → Except String Value
  fetch : String → List Value → Except String (List Row)
  execute : String → List Value → Except String String
  fetchrow : String → List Value → Except String (Option Row)

/-- Outcome of one engine method: the returned dict or the raised
exception, together with the connection-lifecycle event trace. -/
abbrev Outcome := Except String Json × List Event

/-- dict(r) for an asyncpg record. -/
def rowToJson (r : Row) : Json :=
  .jobj (r.map (fun kv => (kv.1, Json.ofValue kv.2)))

/-- r[key] on an asyncpg record: KeyError when the column is absent. -/
def recordField (r : Row) (k : String) : Except String Value :=
  match r.lookup k with
  | some v => .ok v
  | none => .error ("KeyError: " ++ k)

/-- _create_record: connect, build, fetchval, close in a finally block.
A connect failure raises before any try block, so no event is traced. -/
def createRecord (o : Oracle) (table : String) (data : Dict) : Outcome :=
  match o.connect with
  | .error e => (.error e, [])
  | .ok _ =>
    let frag := buildCreate table data
    let trace := [Event.acquire, Event.sqlExec frag.query frag.params, Event.release]
    match o.fetchval frag.query frag.params with
    | .ok insertedId =>
      (.ok (.jobj [("success", .jbool true), ("inserted_id", Json.ofValue insertedId)]), trace)
    | .error e => (.error e, trace)

/-- _read_records: connect, build, fetch, shape rows, close. -/
def readRecords (o : Oracle) (table : String) (conditions : Option Dict)
    (limit : Option Int) : Outcome :=
  match o.connect with
  | .error e => (.error e, [])
  | .ok _ =>
    let frag := buildRead table conditions limit
    let trace := [Event.acquire, Event.sqlExec frag.query frag.params, Event.release]
    match o.fetch frag.query frag.params with
    | .ok rows =>
      (.ok (.jobj [("success", .jbool true), ("data", .jarr (rows.map rowToJson))]), trace)
    | .error e => (.error e, trace)

/-- _update_records: connect, build, execute, close; the driver status
text is surfaced as the message. -/
def updateRecords (o : Oracle) (table : String) (data conditions : Dict) : Outcome :=
  match o.connect with
  | .error e => (.error e, [])
  | .ok _ =>
    let frag := buildUpdate table data conditions
    let trace := [Event.acquire, Event.sqlExec frag.query frag.params, Event.release]
    match o.execute frag.query frag.params with
    | .ok status =>
      (.ok (.jobj [("success", .jbool true), ("message", .jstr status)]), trace)
    | .error e => (.error e, trace)

/-- _delete_records: connect, build, execute, close. -/
def deleteRecords (o : Oracle) (table : String) (conditions : Dict) : Outcome :=
  match o.connect with
  | .error e => (.error e, [])
  | .ok _ =>
    let frag := buildDelete table conditions
    let trace := [Event.acquire, Event.sqlExec frag.query frag.params, Event.release]
    match o.execute frag.query frag.params with
    | .ok status =>
      (.ok (.jobj [("success", .jbool true), ("message", .jstr status)]), trace)
    | .error e => (.error e, trace)

/-- [r["table_name"] for r in rows]: a missing column raises KeyError. -/
def extractTableNames : List Row → Except String (List Value)
  | [] => .ok []
  | r :: rest => do
    let v ← recordField r "table_name"
    let vs ← extractTableNames rest
    pure (v :: vs)

/-- _list_tables: connect, fetch the fixed catalog query, close. -/
def listTables (o : Oracle) : Outcome :=
  match o.connect with
  | .error e => (.error e, [])
  | .ok _ =>
    let trace := [Event.acquire, Event.sqlExec listTablesQuery [], Event.release]
    match o.fetch listTablesQuery [] with
    | .ok rows =>
      match extractTableNames rows with
      | .ok names =>
        (.ok (.jobj [("success", .jbool true), ("tables", .jarr (names.map Json.ofValue))]),
         trace)
      | .error e => (.error e, trace)
    | .error e => (.error e, trace)

/-- _describe_table: connect, fetch the fixed catalog query with the
table name bound as $1, close. -/
def describeTable (o : Oracle) (table : String) : Outcome :=
  match o.connect with
  | .error e => (.error e, [])
  | .ok _ =>
    let frag := buildDescribe table
    let trace := [Event.acquire, Event.sqlExec frag.query frag.params, Event.release]
    match o.fetch frag.query frag.params with
    | .ok rows =>
      (.ok (.jobj [("success", .jbool true), ("table", .jstr table),
                   ("columns", .jarr (rows.map rowToJson))]), trace)
    | .error e => (.error e, trace)

/-- _get_base_site: connect, fetchrow, close.  The Python `if row:` is
record truthiness (a record of zero columns would be falsy), and a
present row is indexed as row["base_site"]. -/
def getBaseSite (o : Oracle) (table : String) : Outcome :=
  match o.connect with
  | .error e => (.error e, [])
  | .ok _ =>
    let frag := buildBaseSite table
    let trace := [Event.acquire, Event.sqlExec frag.query frag.params, Event.release]
    match o.fetchrow frag.query frag.params with
    | .ok (some r) =>
      if r.isEmpty then
        (.ok (.jobj [("success", .jbool true), ("base_site", .jnull)]), trace)
      else
        match recordField r "base_site" with
        | .ok v =>
          (.ok (.jobj [("success", .jbool true), ("base_site", Json.ofValue v)]), trace)
        | .error e => (.error e, trace)
    | .ok none =>
      (.ok (.jobj [("success", .jbool true), ("base_site", .jnull)]), trace)
    | .error e => (.error e, trace)

/-! ## The stdio tool dispatcher (call_tool) -/

/-- The arguments dict of a tool call; absent keys are none. -/
structure Args where
  table : Option String := none
  data : Option Dict := none
  conditions : Option Dict := none
  limit : Option Int := none

/-- arguments[k]: KeyError when the key is absent. -/
def requiredArg (x : Option α) (k : String) : Except String α :=
  match x with
  | some v => .ok v
  | none => .error ("KeyError: " ++ k)

/-- data[k] = v on an existing key replaces the value in place. -/
def setKey (d : Dict) (k : String) (v : Value) : Dict :=
  d.map (fun kv => if kv.1 = k then (kv.1, v) else kv)

/-- The calculated_time conversion of the insert_in_postgres branch:
when the key holds a string it is parsed with datetime.fromisoformat
(modelled by the parseIso capability, which may raise). -/
def convertCalculatedTime (parseIso : String → Except String Value) (data : Dict) :
    Except String Dict :=
  match data.lookup "calculated_time" with
  | some (Value.vstr s) =>
    match parseIso s with
    | .ok v => .ok (setKey data "calculated_time" v)
    | .error e => .error e
  | _ => .ok data

/-- The body of the call_tool try block: dispatch on the tool name,
evaluating required arguments in source order.  The early return of the
insert_in_postgres branch on falsy data is an ordinary (non-raising)
result holding an error dict. -/
def callToolBody (o : Oracle) (parseIso : String → Except String Value)
    (name : String) (args : Args) : Outcome :=
  if name = "pg_create_record" then
    match requiredArg args.table "table" with
    | .error e => (.error e, [])
    | .ok t =>
      match requiredArg args.data "data" with
      | .error e => (.error e, [])
      | .ok d => createRecord o t d
  else if name = "pg_read_records" then
    match requiredArg args.table "table" with
    | .error e => (.error e, [])
    | .ok t => readRecords o t args.conditions args.limit
  else if name = "pg_update_records" then
    match requiredArg args.table "table" with
    | .error e => (.error e, [])
    | .ok t =>
      match requiredArg args.data "data" with
      | .error e => (.error e, [])
      | .ok d =>
        match requiredArg args.conditions "conditions" with
        | .error e => (.error e, [])
        | .ok c => updateRecords o t d c
  else if name = "pg_delete_records" then
    match requiredArg args.table "table" with
    | .error e => (.error e, [])
    | .ok t =>
      match requiredArg args.conditions "conditions" with
      | .error e => (.error e, [])
      | .ok c => deleteRecords o t c
  else if name = "pg_list_tables" then
    listTables o
  else if name = "pg_describe_table" then
    match requiredArg args.table "table" with
    | .error e => (.error e, [])
    | .ok t => describeTable o t
  else if name = "insert_in_postgres" then
    match args.data with
    | none => (.ok (.jobj [("error", .jstr "Missing \u0027data\u0027 argument")]), [])
    | some d =>
      if d.isEmpty then
        (.ok (.jobj [("error", .jstr "Missing \u0027data\u0027 argument")]), [])
      else
        match convertCalculatedTime parseIso d with
        | .error e => (.error e, [])
        | .ok d2 =>
          match requiredArg args.table "table" with
          | .error e => (.error e, [])
          | .ok t => createRecord o t d2
  else if name = "get_from_postgres" then
    match requiredArg args.table "table" with
    | .error e => (.error e, [])
    | .ok t => readRecords o t args.conditions args.limit
  else if name = "get_base_site" then
    match requiredArg args.table "table" with
    | .error e => (.error e, [])
    | .ok t => getBaseSite o t
  else
    (.ok (.jobj [("error", .jstr ("Unknown tool: " ++ name))]), [])

/-- The serialized payload handed back by call_tool (the source wraps it
as TextContent(type="text", text=json.dumps(result))). -/
structure TextContent where
  text : Json
  deriving Repr

/-- call_tool: the surrounding try/except turns every raised exception
into the dict literal json.dumps produces from str(e); the function
itself never raises. -/
def callTool (o : Oracle) (parseIso : String → Except String Value)
    (name : String) (args : Args) : List TextContent × List Event :=
  match callToolBody o parseIso name args with
  | (.ok j, evs) => ([⟨j⟩], evs)
  | (.error e, evs) => ([⟨.jobj [("error", .jstr e)]⟩], evs)

/-! ## The HTTP wrapper dispatcher (execute_tool of mcp_http_wrapper2.py) -/

/-- The HTTP response: a forwarded engine envelope, or a raised
HTTPException with a status code and detail string. -/
inductive HttpResult where
  | ok : Json → HttpResult
  | httpError : Nat → String → HttpResult
  deriving Repr

/-- The body of the execute_tool try block.  The unknown-tool branch
raises HTTPException(400, ...), which the except-Exception handler also
catches; str of that exception is "400: detail". -/
def executeToolBody (o : Oracle) (tool : String) (args : Args) : Except String Json :=
  if tool = "pg_create_record" ∨ tool = "insert_in_postgres" then
    match requiredArg args.table "table" with
    | .error e => .error e
    | .ok t =>
      match requiredArg args.data "data" with
      | .error e => .error e
      | .ok d => (createRecord o t d).1
  else if tool = "pg_read_records" ∨ tool = "get_from_postgres" then
    match requiredArg args.table "table" with
    | .error e => .error e
    | .ok t => (readRecords o t args.conditions args.limit).1
  else if tool = "pg_update_records" then
    match requiredArg args.table "table" with
    | .error e => .error e
    | .ok t =>
      match requiredArg args.data "data" with
      | .error e => .error e
      | .ok d =>
        match requiredArg args.conditions "conditions" with
        | .error e => .error e
        | .ok c => (updateRecords o t d c).1
  else if tool = "pg_delete_records" then
    match requiredArg args.table "table" with
    | .error e => .error e
    | .ok t =>
      match requiredArg args.conditions "conditions" with
      | .error e => .error e
      | .ok c => (deleteRecords o t c).1
  else if tool = "pg_list_tables" then
    (listTables o).1
  else if tool = "pg_describe_table" then
    match requiredArg args.table "table" with
    | .error e => .error e
    | .ok t => (describeTable o t).1
  else if tool = "get_base_site" then
    match requiredArg args.table "table" with
    | .error e => .error e
    | .ok t => (getBaseSite o t).1
  else
    .error ("400: Unknown tool name: " ++ tool)

/-- execute_tool: a successful envelope is forwarded verbatim; any
exception from the body is re-raised as HTTPException(500, str(e)). -/
def executeTool (o : Oracle) (tool : String) (args : Args) : HttpResult :=
  match executeToolBody o tool args with
  | .ok j => .ok j
  | .error e => .httpError 500 e

/-! ## Concrete oracles used by witnesses and counterexamples -/

/-- A driver whose connect succeeds and whose query methods return the
given constants. -/
def okConnOracle (fv : Value) (rows : List Row) (status : String)
    (row? : Option Row) : Oracle :=
  { connect := .ok ()
    fetchval := fun _ _ => .ok fv
    fetch := fun _ _ => .ok rows
    execute := fun _ _ => .ok status
    fetchrow := fun _ _ => .ok row? }

/-- A driver whose connect raises with the given description. -/
def noConnOracle (e : String) : Oracle :=
  { connect := .error e
    fetchval := fun _ _ => .error e
    fetch := fun _ _ => .error e
    execute := fun _ _ => .error e
    fetchrow := fun _ _ => .error e }

/-- A driver that connects but whose every statement fails. -/
def failExecOracle (e : String) : Oracle :=
  { connect := .ok ()
    fetchval := fun _ _ => .error e
    fetch := fun _ _ => .error e
    execute := fun _ _ => .error e
    fetchrow := fun _ _ => .error e }

/-- The identity iso-datetime parser used to instantiate witnesses. -/
def idParseIso : String → Except String Value := fun s => .ok (.vstr s)

/-! ## Helper lemmas about List.enumFrom -/

theorem myEnumFrom_append {α : Type} (xs ys : List α) : ∀ n,
    List.enumFrom n (xs ++ ys) = List.enumFrom n xs ++ List.enumFrom (n + xs.length) ys := by
  induction xs with
  | nil => intro n; simp [List.enumFrom]
  | cons x xs ih =>
    intro n
    have h : n + 1 + xs.length = n + (xs.length + 1) := by omega
    simp [List.enumFrom, ih (n + 1), h]

theorem myEnumFrom_shift_aux {α : Type} (l : List α) (k : Nat) : ∀ m,
    List.enumFrom (m + k) l = (List.enumFrom m l).map (fun p => (p.1 + k, p.2)) := by
  induction l with
  | nil => intro m; simp [List.enumFrom]
  | cons x xs ih =>
    intro m
    simp [List.enumFrom]
    rw [show m + k + 1 = m + 1 + k by omega]
    exact ih (m + 1)

theorem myEnumFrom_shift {α : Type} (l : List α) (n : Nat) :
    List.enumFrom n l = l.enum.map (fun p => (p.1 + n, p.2)) := by
  have := myEnumFrom_shift_aux l n 0
  simpa [List.enum] using this

theorem myEnum_append {α : Type} (xs ys : List α) :
    (xs ++ ys).enum = xs.enum ++ List.enumFrom xs.length ys := by
  have := myEnumFrom_append xs ys 0
  simpa [List.enum] using this

theorem myEnumFrom_map_snd {α β : Type} (f : α → β) (l : List α) : ∀ n,
    List.enumFrom n (l.map f) = (List.enumFrom n l).map (fun p => (p.1, f p.2)) := by
  induction l with
  | nil => intro n; simp [List.enumFrom]
  | cons x xs ih => intro n; simp [List.enumFrom, ih (n + 1)]

theorem myEnum_map_snd {α β : Type} (f : α → β) (l : List α) :
    (l.map f).enum = l.enum.map (fun p => (p.1, f p.2)) := by
  simpa [List.enum] using myEnumFrom_map_snd f l 0

/-! ## Clause lists as functions of the key list alone -/

theorem setClauses_length (data : Dict) : (setClauses data).length = data.length := by
  simp [setClauses]

theorem readWhereClauses_keys (cs : Dict) :
    readWhereClauses cs
      = (cs.map Prod.fst).enum.map (fun ik => ik.2 ++ " = $" ++ toString (ik.1 + 1)) := by
  rw [readWhereClauses, myEnum_map_snd, List.map_map]
  rfl

theorem setClauses_keys (data : Dict) :
    setClauses data
      = (data.map Prod.fst).enum.map (fun ik => ik.2 ++ " = $" ++ toString (ik.1 + 1)) := by
  rw [setClauses, myEnum_map_snd, List.map_map]
  rfl

theorem updateWhereClauses_keys (k : Nat) (cs : Dict) :
    updateWhereClauses k cs
      = (cs.map Prod.fst).enum.map (fun ik => ik.2 ++ " = $" ++ toString (ik.1 + k + 1)) := by
  rw [updateWhereClauses, myEnum_map_snd, List.map_map]
  rfl

theorem deleteWhereClauses_keys (cs : Dict) :
    deleteWhereClauses cs
      = (cs.map Prod.fst).enum.map (fun ik => ik.2 ++ " = $" ++ toString (ik.1 + 1)) := by
  rw [deleteWhereClauses, myEnum_map_snd, List.map_map]
  rfl

/-! ## Helper lemmas about String.intercalate -/

theorem go_prefix (s : String) (l : List String) : ∀ acc,
    ∃ b, String.intercalate.go acc s l = acc ++ b := by
  induction l with
  | nil => intro acc; exact ⟨"", (String.append_empty acc).symm⟩
  | cons a as ih =>
    intro acc
    obtain ⟨b, hb⟩ := ih (acc ++ s ++ a)
    refine ⟨s ++ a ++ b, ?_⟩
    show String.intercalate.go (acc ++ s ++ a) s as = _
    rw [hb]
    simp [String.append_assoc]

theorem go_mem_split (s k : String) (l : List String) (h : k ∈ l) : ∀ acc,
    ∃ a b, String.intercalate.go acc s l = a ++ k ++ b := by
  induction l with
  | nil => cases h
  | cons x xs ih =>
    intro acc
    rcases List.mem_cons.mp h with h1 | h2
    · subst h1
      obtain ⟨b, hb⟩ := go_prefix s xs (acc ++ s ++ k)
      exact ⟨acc ++ s, b, hb⟩
    · exact ih h2 (acc ++ s ++ x)

theorem intercalate_mem_split (sep k : String) (l : List String) (h : k ∈ l) :
    ∃ a b, String.intercalate sep l = a ++ k ++ b := by
  cases l with
  | nil => cases h
  | cons x xs =>
    rcases List.mem_cons.mp h with h1 | h2
    · subst h1
      obtain ⟨b, hb⟩ := go_prefix sep xs k
      refine ⟨"", b, ?_⟩
      show String.intercalate.go k sep xs = _
      rw [hb]
      simp [String.empty_append]
    · exact go_mem_split sep k xs h2 x

/-! ## Unfolding equations for the built query texts -/

theorem buildCreate_query (table : String) (data : Dict) :
    (buildCreate table data).query
      = "INSERT INTO " ++ table ++ " (" ++ String.intercalate ", " (data.map Prod.fst)
        ++ ") VALUES ("
        ++ String.intercalate ", "
            ((List.range data.length).map (fun i => "$" ++ toString (i + 1)))
        ++ ") RETURNING id;" := rfl

theorem buildUpdate_query (table : String) (data conditions : Dict) :
    (buildUpdate table data conditions).query
      = "UPDATE " ++ table ++ " SET " ++ String.intercalate ", " (setClauses data)
        ++ " WHERE "
        ++ String.intercalate " AND "
            (updateWhereClauses (setClauses data).length conditions) := rfl

theorem buildDelete_query (table : String) (conditions : Dict) :
    (buildDelete table conditions).query
      = "DELETE FROM " ++ table ++ " WHERE "
        ++ String.intercalate " AND " (deleteWhereClauses conditions) := rfl

theorem buildBaseSite_query (table : String) :
    (buildBaseSite table).query
      = "\n            SELECT base_site \n            FROM " ++ table
        ++ " \n            ORDER BY calculated_time DESC \n            LIMIT 1;\n            " := rfl

/-! ## Claim theorems -/

/-- Claim C1: the code does NOT reject empty data or conditions mappings
before opening a connection.  Evaluated at the failing input
delete_records("users", \x7b\x7d): the connection is acquired and the
malformed statement DELETE FROM users WHERE  is submitted for execution;
update with empty conditions and create with empty data likewise build
and submit SQL with an empty clause list. -/
theorem empty_mappings_reach_database :
    (deleteRecords (failExecOracle "syntax error at end of input") "users" []).2
      = [Event.acquire, Event.sqlExec "DELETE FROM users WHERE " [], Event.release]
    ∧ (buildDelete "users" []).query = "DELETE FROM users WHERE "
    ∧ (buildUpdate "users" [("age", Value.vint 31)] []).query
      = "UPDATE users SET age = $1 WHERE "
    ∧ (buildCreate "users" []).query = "INSERT INTO users () VALUES () RETURNING id;"
    ∧ (updateRecords (failExecOracle "syntax error at end of input") "users"
        [("age", Value.vint 31)] []).2
      = [Event.acquire,
         Event.sqlExec "UPDATE users SET age = $1 WHERE " [Value.vint 31], Event.release] := by
  refine ⟨?_, ?_, ?_, ?_, ?_⟩ <;> rfl

/-- Claim C2: for non-empty data (k entries) and conditions (m entries),
the UPDATE clause list numbers SET placeholders 1..k and WHERE
placeholders k+1..k+m with no gap or reuse: the concatenated clause list
is exactly the enumeration of data ++ conditions in which the clause at
0-based position i carries placeholder index i+1; and the parameter list
is the data values followed by the conditions values. -/
theorem update_placeholders_contiguous (table : String) (data conditions : Dict)
    (hd : data ≠ []) (hm : conditions ≠ []) :
    setClauses data ++ updateWhereClauses (setClauses data).length conditions
      = (data ++ conditions).enum.map (fun ik => ik.2.1 ++ " = $" ++ toString (ik.1 + 1))
    ∧ (buildUpdate table data conditions).params
      = data.map Prod.snd ++ conditions.map Prod.snd
    ∧ (buildUpdate table data conditions).query
      = "UPDATE " ++ table ++ " SET " ++ String.intercalate ", " (setClauses data)
        ++ " WHERE "
        ++ String.intercalate " AND "
            (updateWhereClauses (setClauses data).length conditions) := by
  refine ⟨?_, rfl, rfl⟩
  rw [myEnum_append, List.map_append, setClauses_length]
  congr 1
  rw [myEnumFrom_shift, List.map_map]
  rfl

/-- Witness for C2 at the spec scenario
update_records("users", \x7bage: 31\x7d, \x7bid: 1\x7d). -/
theorem update_placeholders_contiguous_witness :
    ([("age", Value.vint 31)] : Dict) ≠ []
    ∧ ([("id", Value.vint 1)] : Dict) ≠ []
    ∧ (buildUpdate "users" [("age", Value.vint 31)] [("id", Value.vint 1)]).params
      = ([("age", Value.vint 31)] : Dict).map Prod.snd
        ++ ([("id", Value.vint 1)] : Dict).map Prod.snd
    ∧ (buildUpdate "users" [("age", Value.vint 31)] [("id", Value.vint 1)]).query
      = "UPDATE users SET age = $1 WHERE id = $2" := by
  refine ⟨by decide, by decide, ?_, by decide⟩
  exact (update_placeholders_contiguous "users"
    [("age", Value.vint 31)] [("id", Value.vint 1)] (by decide) (by decide)).2.1

/-- Claim C10: read_records invoked with limit 0 builds the same fragment
as with limit absent — no LIMIT clause at all — and the whole operation
behaves identically. -/
theorem read_limit_zero_same_as_absent (table : String) (conditions : Option Dict)
    (o : Oracle) :
    buildRead table conditions (some 0) = buildRead table conditions none
    ∧ readRecords o table conditions (some 0) = readRecords o table conditions none := by
  have hb : buildRead table conditions (some 0) = buildRead table conditions none := by
    simp [buildRead]
  exact ⟨hb, by simp only [readRecords, hb]⟩

/-- Claim C5 counterexample: the create builder appends RETURNING id with
a trailing semicolon, so the scenario SQL text quoted by the claim
(without the semicolon) is not the emitted statement text. -/
theorem create_scenario_semicolon_counterexample :
    (buildCreate "users" [("name", Value.vstr "Alice"), ("age", Value.vint 30)]).query
      ≠ "INSERT INTO users (name, age) VALUES ($1, $2) RETURNING id"
    ∧ (buildCreate "users" [("name", Value.vstr "Alice"), ("age", Value.vint 30)]).query
      = "INSERT INTO users (name, age) VALUES ($1, $2) RETURNING id;" := by
  exact ⟨by decide, by decide⟩

/-- Claim C5 (amended: the emitted statement ends in RETURNING id
followed by a semicolon): for non-empty data the INSERT has exactly
len(data) placeholders 1..len(data), the column list in key order, and
the parameter list is the data values in the same order; on success the
envelope carries the generated id. -/
theorem create_builder_correct (table : String) (data : Dict) (o : Oracle) (v : Value)
    (hd : data ≠ [])
    (hc : o.connect = .ok ())
    (hf : o.fetchval (buildCreate table data).query (buildCreate table data).params
            = .ok v) :
    ((List.range data.length).map (fun i => "$" ++ toString (i + 1))).length = data.length
    ∧ (buildCreate table data).query
      = "INSERT INTO " ++ table ++ " (" ++ String.intercalate ", " (data.map Prod.fst)
        ++ ") VALUES ("
        ++ String.intercalate ", "
            ((List.range data.length).map (fun i => "$" ++ toString (i + 1)))
        ++ ") RETURNING id;"
    ∧ (buildCreate table data).params = data.map Prod.snd
    ∧ (createRecord o table data).1
      = .ok (.jobj [("success", .jbool true), ("inserted_id", Json.ofValue v)]) := by
  refine ⟨by simp, rfl, rfl, ?_⟩
  simp [createRecord, hc, hf]

/-- Witness for C5 at the spec scenario
create_record("users", \x7bname: Alice, age: 30\x7d) with a driver whose
INSERT returns id 7. -/
theorem create_builder_correct_witness :
    ([("name", Value.vstr "Alice"), ("age", Value.vint 30)] : Dict) ≠ []
    ∧ (okConnOracle (Value.vint 7) [] "" none).connect = .ok ()
    ∧ (okConnOracle (Value.vint 7) [] "" none).fetchval
        (buildCreate "users" [("name", Value.vstr "Alice"), ("age", Value.vint 30)]).query
        (buildCreate "users" [("name", Value.vstr "Alice"), ("age", Value.vint 30)]).params
      = .ok (Value.vint 7)
    ∧ (createRecord (okConnOracle (Value.vint 7) [] "" none) "users"
        [("name", Value.vstr "Alice"), ("age", Value.vint 30)]).1
      = .ok (.jobj [("success", .jbool true), ("inserted_id", Json.ofValue (Value.vint 7))])
    ∧ (buildCreate "users" [("name", Value.vstr "Alice"), ("age", Value.vint 30)]).query
      = "INSERT INTO users (name, age) VALUES ($1, $2) RETURNING id;"
    ∧ (buildCreate "users" [("name", Value.vstr "Alice"), ("age", Value.vint 30)]).params
      = [Value.vstr "Alice", Value.vint 30] := by
  refine ⟨by decide, rfl, rfl, ?_, by decide, by decide⟩
  exact (create_builder_correct "users" [("name", Value.vstr "Alice"), ("age", Value.vint 30)]
    (okConnOracle (Value.vint 7) [] "" none) (Value.vint 7) (by decide) rfl rfl).2.2.2

/-- Claim C6 counterexample: a supplied limit of 0 is NOT inlined into
the SQL text — the built fragment is identical to the one with limit
absent and contains no LIMIT clause. -/
theorem read_limit_zero_counterexample :
    buildRead "users" none (some 0) = buildRead "users" none none
    ∧ (buildRead "users" none (some 0)).query = "SELECT * FROM users"
    ∧ (buildRead "users" none (some 0)).query ≠ "SELECT * FROM users LIMIT 0" := by
  exact ⟨rfl, by decide, by decide⟩

/-- Claim C6 (amended: a supplied NONZERO limit is inlined as a literal;
a limit of 0 emits no LIMIT clause, behaving as if absent): read with
conditions None has no WHERE clause and an empty parameter list, a
supplied limit never reaches the parameter list, and an execution
returning zero rows yields a success envelope with an empty list. -/
theorem read_none_conditions_no_where (table : String) (lim : Option Int) (n : Int)
    (cs : Dict) (o : Oracle)
    (hn : n ≠ 0)
    (hc : o.connect = .ok ())
    (hf : o.fetch (buildRead table none lim).query (buildRead table none lim).params
            = .ok []) :
    (buildRead table none lim).params = []
    ∧ (buildRead table none none).query = "SELECT * FROM " ++ table
    ∧ (buildRead table none (some n)).query
      = "SELECT * FROM " ++ table ++ " LIMIT " ++ toString n
    ∧ (buildRead table (some cs) lim).params = cs.map Prod.snd
    ∧ (readRecords o table none lim).1
      = .ok (.jobj [("success", .jbool true), ("data", .jarr [])]) := by
  refine ⟨rfl, rfl, ?_, ?_, ?_⟩
  · simp [buildRead, hn]
  · cases cs <;> simp [buildRead]
  · simp [readRecords, hc, hf]

/-- Witness for C6 at table users, limit 5, conditions \x7bid: 1\x7d, with
an empty-result driver. -/
theorem read_none_conditions_no_where_witness :
    (5 : Int) ≠ 0
    ∧ (okConnOracle Value.vnull [] "" none).connect = .ok ()
    ∧ (okConnOracle Value.vnull [] "" none).fetch
        (buildRead "users" none (some 5)).query (buildRead "users" none (some 5)).params
      = .ok []
    ∧ (readRecords (okConnOracle Value.vnull [] "" none) "users" none (some 5)).1
      = .ok (.jobj [("success", .jbool true), ("data", .jarr [])])
    ∧ (buildRead "users" none (some 5)).query = "SELECT * FROM users LIMIT 5" := by
  refine ⟨by decide, rfl, rfl, ?_, by decide⟩
  exact (read_none_conditions_no_where "users" (some 5) 5 [("id", Value.vint 1)]
    (okConnOracle Value.vnull [] "" none) (by decide) rfl rfl).2.2.2.2

/-- Claim C3 counterexample: the engine operation _create_record itself
raises the execution failure to its caller — its outcome is an
exception, not an envelope; the failure record produced at the call_tool
boundary carries only the error string and has no success field; and the
HTTP wrapper re-raises the failure as an HTTPException rather than
returning an envelope. -/
theorem engine_failure_counterexample :
    (createRecord (failExecOracle "duplicate key") "users"
        [("name", Value.vstr "Alice")]).1
      = .error "duplicate key"
    ∧ (callTool (failExecOracle "duplicate key") idParseIso "pg_create_record"
        { table := some "users", data := some [("name", Value.vstr "Alice")] }).1
      = [⟨.jobj [("error", .jstr "duplicate key")]⟩]
    ∧ Json.lookupField (.jobj [("error", .jstr "duplicate key")]) "success" = none
    ∧ executeTool (failExecOracle "duplicate key") "pg_create_record"
        { table := some "users", data := some [("name", Value.vstr "Alice")] }
      = .httpError 500 "duplicate key" := by
  exact ⟨rfl, rfl, rfl, rfl⟩

/-- Claim C3 (amended): failures during build, connection acquisition or
execution propagate out of the engine methods and are caught at the
front-end boundaries: the stdio dispatcher call_tool always returns
exactly one TextContent, converting any exception e into the record
\x7berror: e\x7d (no success flag) and never raising to its caller,
while the HTTP wrapper execute_tool converts any exception into a raised
HTTPException with status 500. -/
theorem failure_caught_at_front_end_boundary (o : Oracle)
    (p : String → Except String Value) (name : String) (args : Args) :
    (∃ tc : TextContent, (callTool o p name args).1 = [tc])
    ∧ (∀ e, (callToolBody o p name args).1 = .error e →
        (callTool o p name args).1 = [⟨.jobj [("error", .jstr e)]⟩])
    ∧ (∀ j, (callToolBody o p name args).1 = .ok j →
        (callTool o p name args).1 = [⟨j⟩])
    ∧ (∀ e, executeToolBody o name args = .error e →
        executeTool o name args = .httpError 500 e) := by
  refine ⟨?_, ?_, ?_, ?_⟩
  · cases hbody : callToolBody o p name args with
    | mk r evs =>
      cases r with
      | ok j => exact ⟨⟨j⟩, by simp [callTool, hbody]⟩
      | error e => exact ⟨⟨.jobj [("error", .jstr e)]⟩, by simp [callTool, hbody]⟩
  · intro e he
    cases hbody : callToolBody o p name args with
    | mk r evs =>
      rw [hbody] at he
      simp only at he
      subst he
      simp [callTool, hbody]
  · intro j hj
    cases hbody : callToolBody o p name args with
    | mk r evs =>
      rw [hbody] at hj
      simp only at hj
      subst hj
      simp [callTool, hbody]
  · intro e he
    simp [executeTool, he]

/-- Witness for C3 at a driver whose connect fails. -/
theorem failure_caught_witness :
    (callToolBody (noConnOracle "connection refused") idParseIso "pg_read_records"
        { table := some "users" }).1 = .error "connection refused"
    ∧ (callTool (noConnOracle "connection refused") idParseIso "pg_read_records"
        { table := some "users" }).1
      = [⟨.jobj [("error", .jstr "connection refused")]⟩] := by
  refine ⟨rfl, ?_⟩
  exact (failure_caught_at_front_end_boundary (noConnOracle "connection refused") idParseIso
    "pg_read_records" { table := some "users" }).2.1 "connection refused" rfl

/-- Claim C4 counterexample: describe_table passes the supplied table
identifier as a bound parameter, so the claim that table identifiers
never appear in the bound parameter list fails at
describe_table("users"). -/
theorem describe_table_binds_identifier_counterexample :
    (buildDescribe "users").params = [Value.vstr "users"]
    ∧ Value.vstr "users" ∈ (buildDescribe "users").params := by
  exact ⟨rfl, by decide⟩

/-- Claim C4 (amended: restricted to the interpolating operations —
create, read, update, delete and the base-site lookup — describe_table
instead binds its table name as a parameter): the bound parameter list
is exactly the supplied values, the SQL text depends only on the keys
and table (never on the values), the table identifier occurs as a
literal fragment of the SQL text, and each column key of create occurs
as a literal fragment of its SQL text. -/
theorem identifiers_literal_values_bound (table : String)
    (data conds data' conds' : Dict) (condsOpt : Option Dict) (lim : Option Int)
    (hk : data.map Prod.fst = data'.map Prod.fst)
    (hk2 : conds.map Prod.fst = conds'.map Prod.fst) :
    ((buildCreate table data).params = data.map Prod.snd
      ∧ (buildUpdate table data conds).params = data.map Prod.snd ++ conds.map Prod.snd
      ∧ (buildDelete table conds).params = conds.map Prod.snd
      ∧ (buildRead table (some conds) lim).params = conds.map Prod.snd
      ∧ (buildBaseSite table).params = [])
    ∧ ((buildCreate table data).query = (buildCreate table data').query
      ∧ (buildUpdate table data conds).query = (buildUpdate table data' conds').query
      ∧ (buildDelete table conds).query = (buildDelete table conds').query
      ∧ (buildRead table (some conds) lim).query = (buildRead table (some conds') lim).query)
    ∧ ((∃ a b, (buildCreate table data).query = a ++ table ++ b)
      ∧ (∃ a b, (buildUpdate table data conds).query = a ++ table ++ b)
      ∧ (∃ a b, (buildDelete table conds).query = a ++ table ++ b)
      ∧ (∃ a b, (buildRead table condsOpt lim).query = a ++ table ++ b)
      ∧ (∃ a b, (buildBaseSite table).query = a ++ table ++ b))
    ∧ (∀ k, k ∈ data.map Prod.fst →
        ∃ a b, (buildCreate table data).query = a ++ k ++ b) := by
  have hlen : data.length = data'.length := by
    have := congrArg List.length hk
    simpa using this
  have hsc : setClauses data = setClauses data' := by
    rw [setClauses_keys, setClauses_keys, hk]
  have hwc : ∀ j, updateWhereClauses j conds = updateWhereClauses j conds' := by
    intro j
    rw [updateWhereClauses_keys, updateWhereClauses_keys, hk2]
  have hdc : deleteWhereClauses conds = deleteWhereClauses conds' := by
    rw [deleteWhereClauses_keys, deleteWhereClauses_keys, hk2]
  have hrc : readWhereClauses conds = readWhereClauses conds' := by
    rw [readWhereClauses_keys, readWhereClauses_keys, hk2]
  have readStarts : ∀ (co : Option Dict) (li : Option Int),
      ∃ b, (buildRead table co li).query = ("SELECT * FROM " ++ table) ++ b := by
    intro co li
    rcases co with _ | cs
    · rcases li with _ | n
      · exact ⟨"", (String.append_empty _).symm⟩
      · by_cases hn0 : n = 0
        · subst hn0
          exact ⟨"", by simp [buildRead, String.append_empty]⟩
        · exact ⟨" LIMIT " ++ toString n, by simp [buildRead, hn0, String.append_assoc]⟩
    · rcases cs with _ | ⟨c, cst⟩
      · rcases li with _ | n
        · exact ⟨"", by simp [buildRead, String.append_empty]⟩
        · by_cases hn0 : n = 0
          · subst hn0
            exact ⟨"", by simp [buildRead, String.append_empty]⟩
          · exact ⟨" LIMIT " ++ toString n, by simp [buildRead, hn0, String.append_assoc]⟩
      · rcases li with _ | n
        · exact ⟨" WHERE " ++ String.intercalate " AND " (readWhereClauses (c :: cst)),
            by simp [buildRead, String.append_assoc]⟩
        · by_cases hn0 : n = 0
          · subst hn0
            exact ⟨" WHERE " ++ String.intercalate " AND " (readWhereClauses (c :: cst)),
              by simp [buildRead, String.append_assoc]⟩
          · exact ⟨" WHERE " ++ String.intercalate " AND " (readWhereClauses (c :: cst))
              ++ " LIMIT " ++ toString n,
              by simp [buildRead, hn0, String.append_assoc]⟩
  refine ⟨⟨rfl, rfl, rfl, ?_, rfl⟩, ⟨?_, ?_, ?_, ?_⟩, ⟨?_, ?_, ?_, ?_, ?_⟩, ?_⟩
  · cases conds <;> rfl
  · rw [buildCreate_query, buildCreate_query, hk, hlen]
  · rw [buildUpdate_query, buildUpdate_query, hsc, hwc ((setClauses data').length)]
  · rw [buildDelete_query, buildDelete_query, hdc]
  · rcases conds with _ | ⟨c, cst⟩
    · have h0 : conds' = [] := by simpa using hk2.symm
      subst h0
      rfl
    · rcases conds' with _ | ⟨d, dst⟩
      · simp at hk2
      · simp [buildRead, hrc]
  · refine ⟨"INSERT INTO ",
      " (" ++ String.intercalate ", " (data.map Prod.fst) ++ ") VALUES ("
        ++ String.intercalate ", "
            ((List.range data.length).map (fun i => "$" ++ toString (i + 1)))
        ++ ") RETURNING id;", ?_⟩
    rw [buildCreate_query]
    simp [String.append_assoc]
  · refine ⟨"UPDATE ",
      " SET " ++ String.intercalate ", " (setClauses data) ++ " WHERE "
        ++ String.intercalate " AND " (updateWhereClauses (setClauses data).length conds),
      ?_⟩
    rw [buildUpdate_query]
    simp [String.append_assoc]
  · refine ⟨"DELETE FROM ",
      " WHERE " ++ String.intercalate " AND " (deleteWhereClauses conds), ?_⟩
    rw [buildDelete_query]
    simp [String.append_assoc]
  · obtain ⟨b, hb⟩ := readStarts condsOpt lim
    exact ⟨"SELECT * FROM ", b, hb⟩
  · refine ⟨"\n            SELECT base_site \n            FROM ",
      " \n            ORDER BY calculated_time DESC \n            LIMIT 1;\n            ", ?_⟩
    rw [buildBaseSite_query]
  · intro k hkmem
    obtain ⟨a, b, hab⟩ := intercalate_mem_split ", " k (data.map Prod.fst) hkmem
    refine ⟨"INSERT INTO " ++ table ++ " (" ++ a,
      b ++ ") VALUES ("
        ++ String.intercalate ", "
            ((List.range data.length).map (fun i => "$" ++ toString (i + 1)))
        ++ ") RETURNING id;", ?_⟩
    rw [buildCreate_query, hab]
    simp [String.append_assoc]

/-- Witness for C4 at concrete mappings sharing keys but not values. -/
theorem identifiers_literal_values_bound_witness :
    ([("name", Value.vstr "Alice")] : Dict).map Prod.fst
      = ([("name", Value.vint 1)] : Dict).map Prod.fst
    ∧ ([("id", Value.vint 1)] : Dict).map Prod.fst
      = ([("id", Value.vstr "x")] : Dict).map Prod.fst
    ∧ (buildCreate "users" [("name", Value.vstr "Alice")]).query
      = (buildCreate "users" [("name", Value.vint 1)]).query := by
  refine ⟨by decide, by decide, ?_⟩
  exact (identifiers_literal_values_bound "users"
    [("name", Value.vstr "Alice")] [("id", Value.vint 1)]
    [("name", Value.vint 1)] [("id", Value.vstr "x")] none none
    (by decide) (by decide)).2.1.1

/-- Claim C7: whenever the connection is acquired, every engine operation
traces exactly one acquire, one statement execution and one release, in
that order, on success and failure alike (close sits in a finally
block); when connect itself fails, no connection exists, no SQL is
executed and nothing is released. -/
theorem connection_lifecycle (o : Oracle) (table : String) (data conds : Dict)
    (condsOpt : Option Dict) (lim : Option Int) (e : String) :
    (o.connect = .ok () →
      ((∃ q p, (createRecord o table data).2
          = [Event.acquire, Event.sqlExec q p, Event.release])
       ∧ (∃ q p, (readRecords o table condsOpt lim).2
          = [Event.acquire, Event.sqlExec q p, Event.release])
       ∧ (∃ q p, (updateRecords o table data conds).2
          = [Event.acquire, Event.sqlExec q p, Event.release])
       ∧ (∃ q p, (deleteRecords o table conds).2
          = [Event.acquire, Event.sqlExec q p, Event.release])
       ∧ (∃ q p, (listTables o).2
          = [Event.acquire, Event.sqlExec q p, Event.release])
       ∧ (∃ q p, (describeTable o table).2
          = [Event.acquire, Event.sqlExec q p, Event.release])
       ∧ (∃ q p, (getBaseSite o table).2
          = [Event.acquire, Event.sqlExec q p, Event.release])))
    ∧ (o.connect = .error e →
      ((createRecord o table data).2 = []
       ∧ (readRecords o table condsOpt lim).2 = []
       ∧ (updateRecords o table data conds).2 = []
       ∧ (deleteRecords o table conds).2 = []
       ∧ (listTables o).2 = []
       ∧ (describeTable o table).2 = []
       ∧ (getBaseSite o table).2 = [])) := by
  constructor
  · intro h
    refine ⟨?_, ?_, ?_, ?_, ?_, ?_, ?_⟩
    · refine ⟨(buildCreate table data).query, (buildCreate table data).params, ?_⟩
      cases hr : o.fetchval (buildCreate table data).query (buildCreate table data).params <;>
        simp [createRecord, h, hr]
    · refine ⟨(buildRead table condsOpt lim).query, (buildRead table condsOpt lim).params, ?_⟩
      cases hr : o.fetch (buildRead table condsOpt lim).query
          (buildRead table condsOpt lim).params <;>
        simp [readRecords, h, hr]
    · refine ⟨(buildUpdate table data conds).query, (buildUpdate table data conds).params, ?_⟩
      cases hr : o.execute (buildUpdate table data conds).query
          (buildUpdate table data conds).params <;>
        simp [updateRecords, h, hr]
    · refine ⟨(buildDelete table conds).query, (buildDelete table conds).params, ?_⟩
      cases hr : o.execute (buildDelete table conds).query
          (buildDelete table conds).params <;>
        simp [deleteRecords, h, hr]
    · refine ⟨listTablesQuery, [], ?_⟩
      cases hr : o.fetch listTablesQuery [] with
      | ok rows => cases he : extractTableNames rows <;> simp [listTables, h, hr, he]
      | error e2 => simp [listTables, h, hr]
    · refine ⟨(buildDescribe table).query, (buildDescribe table).params, ?_⟩
      cases hr : o.fetch (buildDescribe table).query (buildDescribe table).params <;>
        simp [describeTable, h, hr]
    · refine ⟨(buildBaseSite table).query, (buildBaseSite table).params, ?_⟩
      cases hr : o.fetchrow (buildBaseSite table).query (buildBaseSite table).params with
      | ok ro =>
        cases ro with
        | some r =>
          by_cases hre : r.isEmpty
          · simp [getBaseSite, h, hr, hre]
          · cases hfld : recordField r "base_site" <;> simp [getBaseSite, h, hr, hre, hfld]
        | none => simp [getBaseSite, h, hr]
      | error e2 => simp [getBaseSite, h, hr]
  · intro h
    refine ⟨?_, ?_, ?_, ?_, ?_, ?_, ?_⟩ <;>
      simp [createRecord, readRecords, updateRecords, deleteRecords, listTables,
        describeTable, getBaseSite, h]

/-- Witness for C7 at a connecting driver. -/
theorem connection_lifecycle_witness :
    (okConnOracle Value.vnull [] "" none).connect = .ok ()
    ∧ (∃ q p, (createRecord (okConnOracle Value.vnull [] "" none) "users"
        [("name", Value.vstr "Alice")]).2
        = [Event.acquire, Event.sqlExec q p, Event.release]) := by
  refine ⟨rfl, ?_⟩
  exact ((connection_lifecycle (okConnOracle Value.vnull [] "" none) "users"
    [("name", Value.vstr "Alice")] [] none none "").1 rfl).1

/-- Claim C8: the latest-value lookup selects base_site ordered by
calculated_time descending with LIMIT 1, and on an empty table (fetchrow
returns no row) it yields a success envelope whose base_site field is
explicitly null, not an error. -/
theorem base_site_latest_lookup (table : String) (o : Oracle) (v : Value)
    (hc : o.connect = .ok ()) :
    (buildBaseSite table).query
      = "\n            SELECT base_site \n            FROM " ++ table
        ++ " \n            ORDER BY calculated_time DESC \n            LIMIT 1;\n            "
    ∧ (buildBaseSite table).params = []
    ∧ (o.fetchrow (buildBaseSite table).query (buildBaseSite table).params = .ok none →
        (getBaseSite o table).1
          = .ok (.jobj [("success", .jbool true), ("base_site", .jnull)]))
    ∧ (o.fetchrow (buildBaseSite table).query (buildBaseSite table).params
          = .ok (some [("base_site", v)]) →
        (getBaseSite o table).1
          = .ok (.jobj [("success", .jbool true), ("base_site", Json.ofValue v)])) := by
  refine ⟨rfl, rfl, ?_, ?_⟩
  · intro hr
    simp [getBaseSite, hc, hr]
  · intro hr
    simp [getBaseSite, hc, hr, recordField]

/-- Witness for C8 at an empty table. -/
theorem base_site_latest_lookup_witness :
    (okConnOracle Value.vnull [] "" none).connect = .ok ()
    ∧ (okConnOracle Value.vnull [] "" none).fetchrow
        (buildBaseSite "sites").query (buildBaseSite "sites").params = .ok none
    ∧ (getBaseSite (okConnOracle Value.vnull [] "" none) "sites").1
      = .ok (.jobj [("success", .jbool true), ("base_site", .jnull)]) := by
  refine ⟨rfl, rfl, ?_⟩
  exact (base_site_latest_lookup "sites" (okConnOracle Value.vnull [] "" none)
    Value.vnull rfl).2.2.1 rfl

/-- Claim C9: describe_table runs a fixed query against the column
catalog (the text is the same for every table name and selects
column_name, data_type, is_nullable, column_default), binds the table
name as the single parameter $1, and returns one descriptor per returned
catalog row. -/
theorem describe_table_fixed_query (table : String) (o : Oracle) (rows : List Row)
    (hc : o.connect = .ok ())
    (hf : o.fetch (buildDescribe table).query (buildDescribe table).params = .ok rows) :
    (buildDescribe table).query
      = "\n            SELECT column_name, data_type, is_nullable, column_default\n            FROM information_schema.columns\n            WHERE table_name = $1;\n            "
    ∧ (∀ t2 : String, (buildDescribe t2).query = (buildDescribe table).query)
    ∧ (buildDescribe table).params = [Value.vstr table]
    ∧ (describeTable o table).1
      = .ok (.jobj [("success", .jbool true), ("table", .jstr table),
                    ("columns", .jarr (rows.map rowToJson))])
    ∧ (rows.map rowToJson).length = rows.length := by
  refine ⟨rfl, fun t2 => rfl, rfl, ?_, by simp⟩
  simp [describeTable, hc, hf]

/-- Witness for C9 at a one-column catalog result. -/
theorem describe_table_fixed_query_witness :
    (okConnOracle Value.vnull
        [[("column_name", Value.vstr "id"), ("data_type", Value.vstr "integer"),
          ("is_nullable", Value.vstr "NO"), ("column_default", Value.vnull)]] "" none).connect
      = .ok ()
    ∧ (okConnOracle Value.vnull
        [[("column_name", Value.vstr "id"), ("data_type", Value.vstr "integer"),
          ("is_nullable", Value.vstr "NO"), ("column_default", Value.vnull)]] "" none).fetch
        (buildDescribe "users").query (buildDescribe "users").params
      = .ok [[("column_name", Value.vstr "id"), ("data_type", Value.vstr "integer"),
          ("is_nullable", Value.vstr "NO"), ("column_default", Value.vnull)]]
    ∧ (describeTable (okConnOracle Value.vnull
        [[("column_name", Value.vstr "id"), ("data_type", Value.vstr "integer"),
          ("is_nullable", Value.vstr "NO"), ("column_default", Value.vnull)]] "" none)
        "users").1
      = .ok (.jobj [("success", .jbool true), ("table", .jstr "users"),
          ("columns", .jarr ([[("column_name", Value.vstr "id"),
            ("data_type", Value.vstr "integer"), ("is_nullable", Value.vstr "NO"),
            ("column_default", Value.vnull)]].map rowToJson))]) := by
  refine ⟨rfl, rfl, ?_⟩
  exact (describe_table_fixed_query "users" (okConnOracle Value.vnull
    [[("column_name", Value.vstr "id"), ("data_type", Value.vstr "integer"),
      ("is_nullable", Value.vstr "NO"), ("column_default", Value.vnull)]] "" none)
    [[("column_name", Value.vstr "id"), ("data_type", Value.vstr "integer"),
      ("is_nullable", Value.vstr "NO"), ("column_default", Value.vnull)]]
    rfl rfl).2.2.2.1

end PgMcp
